import Mathlib

/-!
Verification of the incident-aggregation and source-classification core of
the human-rights-first backend.

The embedded code:
* the `/showallincidents` route handler (the "aggregate" operation of the
  spec): an in-memory multi-way join of incidents, tag definitions
  (`tofTypes`), tag links (`typeLinks`) and sources into nested incident
  records;
* `processSources` from `src/api/incidents/middleware/index.js` (the
  "classify" operation of the spec): host-token extraction from a citation
  URL by JavaScript `String.prototype.split` surgery, then a `switch`
  lookup to a source-type label.

JavaScript-specific behaviour that the embedding keeps:
* `String.prototype.split(sep)[1]` is `undefined` when `sep` does not occur
  (modelled with `Option`), and `if (comps)` treats the empty string as
  false;
* object mutation: the handler assigns `incident['categories']` and
  `incident['src']` on the records of its input `incidents` array and
  pushes those same records into the response array.  This is modelled by
  explicit state passing (`runShowAllIncidents` returns the response
  together with the post-call state of the four fetched collections);
* `incident_src = []` in `processSources` carries no declarator, so the
  assignment targets a module-external global binding; that binding is an
  explicit state component of the embedded `processSources`.

String lengths are counted in code points here and in UTF-16 units by
JavaScript; the two agree on all ASCII text, which covers every host token
the lookup table can match.
-/

/-- A tag-definition row ("type of force"): `getAllTags` result shape. -/
structure TagDef where
  type_of_force_id : Int
  type_of_force : String
deriving DecidableEq

/-- A tag-link row joining a type of force to an incident: `getAllTagTypes`
result shape. -/
structure TagLink where
  type_of_force_id : Int
  incident_id : Int
deriving DecidableEq

/-- A source row: `getAllSources` result shape. -/
structure Source where
  src_id : Int
  incident_id : Int
  src_url : String
  src_type : String
deriving DecidableEq

/-- An incident record.  `incident_id` is the join key; `attrs` stands for
the remaining persisted row fields (`id`, `city`, `state`, `lat`, `long`,
`title`, `desc`, `date`), which the handler never reads or writes, as an
opaque association list.  `categories` and `src` are `none` until the
handler's loops assign them (`incident['categories'] = []` …); `some`
afterwards. -/
structure Incident where
  incident_id : Int
  attrs : List (String × String)
  categories : Option (List String)
  src : Option (List Source)
deriving DecidableEq

/-- An element of the handler's `tagsArray`: the spread
`{ ...tof, incident_id: connection.incident_id }`. -/
structure Tag where
  type_of_force_id : Int
  type_of_force : String
  incident_id : Int
deriving DecidableEq

/-- line 76-82: `tofTypes.forEach(tof => typeLinks.forEach(connection =>
if (connection.type_of_force_id === tof.type_of_force_id)
tagsArray.push({...tof, incident_id: connection.incident_id})))`. -/
def buildTagsArray (tofTypes : List TagDef) (typeLinks : List TagLink) : List Tag :=
  tofTypes.flatMap fun tof =>
    typeLinks.filterMap fun connection =>
      if connection.type_of_force_id = tof.type_of_force_id then
        some { type_of_force_id := tof.type_of_force_id,
               type_of_force := tof.type_of_force,
               incident_id := connection.incident_id }
      else none

/-- line 84-91: `incident['categories'] = []` then push `tag.type_of_force`
for every `tagsArray` entry whose `incident_id` matches. -/
def attachCategories (tagsArray : List Tag) (incident : Incident) : Incident :=
  { incident with
    categories := some (tagsArray.filterMap fun tag =>
      if tag.incident_id = incident.incident_id then some tag.type_of_force
      else none) }

/-- line 94-100: `incident['src'] = []` then push every source whose
`incident_id` matches. -/
def attachSrc (sources : List Source) (incident : Incident) : Incident :=
  { incident with
    src := some (sources.filter fun source =>
      source.incident_id == incident.incident_id) }

/-- The `/showallincidents` join (the spec's `aggregate`): builds
`tagsArray`, runs the categories loop over the whole `incidents` array,
then the sources loop, collecting `responseArray` in incident order. -/
def aggregate (incidents : List Incident) (tofTypes : List TagDef)
    (typeLinks : List TagLink) (sources : List Source) : List Incident :=
  let tagsArray := buildTagsArray tofTypes typeLinks
  ((incidents.map (attachCategories tagsArray)).map (attachSrc sources))

/-- The four collections the handler fetches, as mutable state. -/
structure AggState where
  incidents : List Incident
  tofTypes : List TagDef
  typeLinks : List TagLink
  sources : List Source
deriving DecidableEq

/-- The handler with its writes made explicit: first component the
`responseArray` it serialises, second the post-call state of the fetched
collections.  The two `forEach` loops assign `categories` and `src` on each
element of `incidents` in place, so after the call that array holds exactly
the enriched records, and `responseArray` holds those same records (the
loops push the mutated `incident` object itself, not a copy);
`tofTypes`, `typeLinks` and `sources` are only read (line 79 spreads `tof`
into a fresh object and line 98 pushes `source` records by reference
without writing to them). -/
def runShowAllIncidents (st : AggState) : List Incident × AggState :=
  let responseArray :=
    aggregate st.incidents st.tofTypes st.typeLinks st.sources
  (responseArray, { st with incidents := responseArray })

/-- The per-incident category sequence in definition-major order: for each
tag-definition in supplied order, the definition's label once per matching
tag-link in supplied link order.  Derived characterisation used by the
ordering and multiplicity theorems below. -/
def catsFor (tofTypes : List TagDef) (typeLinks : List TagLink)
    (iid : Int) : List String :=
  tofTypes.flatMap fun tof =>
    typeLinks.filterMap fun connection =>
      if connection.type_of_force_id = tof.type_of_force_id ∧
         connection.incident_id = iid then
        some tof.type_of_force
      else none

/-- JavaScript `String.prototype.split` on character lists, for a non-empty
separator, with explicit fuel (one unit per character scanned; callers pass
the string's length, which suffices because every step consumes at least
one character). -/
def splitChAux (sep : List Char) : Nat → List Char → List Char → List (List Char)
  | 0, acc, rest => [acc.reverse ++ rest]
  | _ + 1, acc, [] => [acc.reverse]
  | fuel + 1, acc, c :: rest =>
    if sep.isPrefixOf (c :: rest) then
      acc.reverse :: splitChAux sep fuel [] (rest.drop (sep.length - 1))
    else
      splitChAux sep fuel (c :: acc) rest

/-- JavaScript `s.split(sep)` for non-empty `sep`: `''.split(sep)` is
`['']`, a separator occurrence at the end contributes a trailing `''`. -/
def jsSplit (s sep : String) : List String :=
  (splitChAux sep.toList s.toList.length [] s.toList).map String.mk

/-- Index `[0]` of a split result (always present: `split` never returns an
empty array). -/
def jsIdx0 (parts : List String) : String :=
  parts.headD ""

/-- Whether `sep` occurs as a contiguous run inside `s` — the test
`splitChAux` applies at each position. -/
def containsSeq (sep : List Char) : List Char → Bool
  | [] => sep.isEmpty
  | c :: rest => sep.isPrefixOf (c :: rest) || containsSeq sep rest

/-- lines 48-61 of the middleware: the `https://`-fallback branch.
`source.split('https://')[1]` is `undefined` (here `none`) when the marker
is absent, in which case `url` keeps its initial `''`; otherwise strip a
`.com` tail, and only when the result is longer than 11 characters strip a
`.org` tail, and only when that is still longer than 10 characters keep
the text before the first remaining `.`. -/
def hostTokenFallback (source : String) : String :=
  match (jsSplit source "https://")[1]? with
  | none => ""
  | some components =>
    let components2 := jsIdx0 (jsSplit components ".com")
    if 11 < components2.length then
      let comps3 := jsIdx0 (jsSplit components2 ".org")
      if 10 < comps3.length then jsIdx0 (jsSplit comps3 ".")
      else comps3
    else components2

/-- lines 44-62: the token fed to the `switch`.  `comps =
source.split('https://www.')[1]` followed by `if (comps)`: the branch is
taken only when the part exists and is non-empty (JavaScript truthiness),
and then the token is the text of `comps` before the first `.com`, with no
length gate and no `.org` or `.` stripping; otherwise the
`https://`-fallback branch runs. -/
def hostToken (source : String) : String :=
  match (jsSplit source "https://www.")[1]? with
  | some comps =>
    if comps = "" then hostTokenFallback source
    else jsIdx0 (jsSplit comps ".com")
  | none => hostTokenFallback source

/-- lines 63-100: the `switch (url)` cases, in source order, as a
first-match association table. -/
def typeTable : List (String × String) :=
  [("youtube", "video"), ("whyy", "video"), ("youtu", "video"),
   ("clips", "video"), ("tuckbot", "video"), ("peertube", "video"),
   ("drive", "video"), ("m", "video"), ("getway", "video"),
   ("instagram", "post"), ("twitter", "post"), ("reddit", "post"),
   ("papost", "post"), ("mobile", "post"), ("nyc", "post"), ("v", "post"),
   ("nlg-la", "court_document"), ("ewscripps", "court_document"),
   ("i", "image"), ("ibb", "image"), ("photos", "image"),
   ("doverpolice", "police_report"), ("dsp", "police_report")]

/-- The `{src_url, src_type}` object `processSources` builds per source. -/
structure SourceOut where
  src_url : String
  src_type : String
deriving DecidableEq

/-- The per-citation body of `processSources` (the spec's `classify`):
`s.src_url = source`, compute the host token, resolve it through the
`switch` (default `'article'`), and return the pair with the original URL
untouched. -/
def classify (source : String) : SourceOut :=
  { src_url := source,
    src_type := (List.lookup (hostToken source) typeTable).getD "article" }

set_option linter.unusedVariables false in
/-- lines 37-106: `processSources(sources)`.  The assignment
`incident_src = []` has no `let`/`var`/`const`, so it creates or
overwrites a module-external global binding; that binding is the explicit
first argument (`none` = binding absent before the call) and the second
component of the result is its post-call value.  The first component is
the returned array, built by pushing `classify` of each source in order. -/
def processSources (incident_src : Option (List SourceOut))
    (sources : List String) : List SourceOut × Option (List SourceOut) :=
  let result := sources.map classify
  (result, some result)

/-- A sample incident row as fetched from storage (derived fields absent),
used to instantiate the universally quantified theorems below. -/
def inc1 : Incident :=
  { incident_id := 1, attrs := [("id", "wa-olympia-1")],
    categories := none, src := none }

/-- A sample source row, matching `inc1`. -/
def src1 : Source :=
  { src_id := 1, incident_id := 1, src_url := "https://twitter.com/x",
    src_type := "post" }

/-- A sample handler state: one incident, one tag definition, one link,
one source. -/
def st1 : AggState :=
  { incidents := [inc1], tofTypes := [⟨1, "tear_gas"⟩],
    typeLinks := [⟨1, 1⟩], sources := [src1] }

/-! Helper lemmas shared by the claim theorems. -/

/-- A successful association-table lookup returns one of the table's
values. -/
theorem lookup_snd_mem {α β : Type} [BEq α] :
    ∀ (l : List (α × β)) (k : α) (v : β),
      List.lookup k l = some v → v ∈ l.map Prod.snd
  | [], _, _, h => by simp [List.lookup] at h
  | (a, b) :: t, k, v, h => by
    rw [List.lookup] at h
    cases hk : k == a with
    | true => simp [hk] at h; simp [h]
    | false =>
      simp [hk] at h
      exact List.mem_cons_of_mem _ (lookup_snd_mem t k v h)

/-- `filterMap` distributes over `flatMap`. -/
theorem filterMap_flatMap {α β γ : Type} (l : List α) (g : α → List β)
    (f : β → Option γ) :
    (l.flatMap g).filterMap f = l.flatMap fun a => (g a).filterMap f := by
  induction l with
  | nil => rfl
  | cons a t ih => simp [List.flatMap_cons, List.filterMap_append, ih]

/-- Selecting one incident's tags out of the rows built for a single tag
definition fuses the two conditions. -/
theorem filterMap_pick_one_def (tof : TagDef) (iid : Int) :
    ∀ (typeLinks : List TagLink),
      ((typeLinks.filterMap fun connection =>
          if connection.type_of_force_id = tof.type_of_force_id then
            some { type_of_force_id := tof.type_of_force_id,
                   type_of_force := tof.type_of_force,
                   incident_id := connection.incident_id }
          else (none : Option Tag)).filterMap fun tag =>
        if tag.incident_id = iid then some tag.type_of_force else none) =
      typeLinks.filterMap fun connection =>
        if connection.type_of_force_id = tof.type_of_force_id ∧
           connection.incident_id = iid then
          some tof.type_of_force
        else none
  | [] => rfl
  | c :: t => by
    by_cases h1 : c.type_of_force_id = tof.type_of_force_id
    · by_cases h2 : c.incident_id = iid
      · simp [List.filterMap_cons, h1, h2, filterMap_pick_one_def tof iid t]
      · simp [List.filterMap_cons, h1, h2, filterMap_pick_one_def tof iid t]
    · simp [List.filterMap_cons, h1, filterMap_pick_one_def tof iid t]

/-- The categories the handler attaches to an incident are exactly
`catsFor` of its `incident_id`. -/
theorem tagsArray_pick_eq_catsFor (tofTypes : List TagDef)
    (typeLinks : List TagLink) (iid : Int) :
    ((buildTagsArray tofTypes typeLinks).filterMap fun tag =>
      if tag.incident_id = iid then some tag.type_of_force else none) =
    catsFor tofTypes typeLinks iid := by
  unfold buildTagsArray catsFor
  rw [filterMap_flatMap]
  exact List.flatMap_congr fun tof _ => filterMap_pick_one_def tof iid typeLinks

/-- Pointwise description of the handler's output: the record at index `i`
is the `i`-th input incident with `categories` and `src` filled in and
every other field untouched. -/
theorem aggregate_getElem (incidents : List Incident) (tofTypes : List TagDef)
    (typeLinks : List TagLink) (sources : List Source) (i : Nat)
    (inc : Incident) (h : incidents[i]? = some inc) :
    (aggregate incidents tofTypes typeLinks sources)[i]? = some
      { inc with
        categories := some (catsFor tofTypes typeLinks inc.incident_id),
        src := some (sources.filter fun s =>
          s.incident_id == inc.incident_id) } := by
  unfold aggregate
  rw [List.getElem?_map, List.getElem?_map, h]
  simp [attachCategories, attachSrc, tagsArray_pick_eq_catsFor]


/-- Counting a label among the categories contributed by one tag
definition: one per occurrence of the exact link pair when the label
matches, none otherwise. -/
theorem count_one_def_links (tid iid : Int) (lbl lab : String) :
    ∀ (typeLinks : List TagLink),
      ((typeLinks.filterMap fun connection =>
          if connection.type_of_force_id = tid ∧
             connection.incident_id = iid then some lbl
          else none).count lab) =
        if lbl = lab then typeLinks.count ⟨tid, iid⟩ else 0
  | [] => by simp
  | c :: t => by
    have ih := count_one_def_links tid iid lbl lab t
    by_cases hc : c.type_of_force_id = tid ∧ c.incident_id = iid
    · have hceq : c = (⟨tid, iid⟩ : TagLink) := by
        cases c
        simp_all
      subst hceq
      by_cases hl : lbl = lab
      · subst hl
        simp [List.filterMap_cons, hc, List.count_cons, ih]
      · simp [List.filterMap_cons, hc, List.count_cons, ih, hl, Ne.symm hl]
    · have hcne : ¬ (⟨tid, iid⟩ : TagLink) = c := by
        intro he
        exact hc ⟨by rw [← he], by rw [← he]⟩
      simp [List.filterMap_cons, hc, List.count_cons, ih, hcne]

/-- Label multiplicity in `catsFor`: summed over tag definitions, the
number of links equal to that definition's pair with this incident. -/
theorem count_catsFor (typeLinks : List TagLink) (iid : Int) (lab : String) :
    ∀ (tofTypes : List TagDef),
      (catsFor tofTypes typeLinks iid).count lab =
        (tofTypes.map fun tof =>
          if tof.type_of_force = lab then
            typeLinks.count ⟨tof.type_of_force_id, iid⟩
          else 0).sum
  | [] => by simp [catsFor]
  | tof :: t => by
    have ih := count_catsFor typeLinks iid lab t
    simp only [catsFor, List.flatMap_cons, List.count_append, List.map_cons,
      List.sum_cons] at *
    rw [ih, count_one_def_links]

/-- Multiplicity of a record in the attached `src` list. -/
theorem count_src_filter (sources : List Source) (iid : Int) (s : Source) :
    ((sources.filter fun x => x.incident_id == iid).count s) =
      if s.incident_id = iid then sources.count s else 0 := by
  by_cases h : s.incident_id = iid
  · rw [if_pos h, List.count_filter]
    simp [h]
  · rw [if_neg h]
    refine List.count_eq_zero.mpr fun hmem => ?_
    have hp := (List.mem_filter.mp hmem).2
    simp only [beq_iff_eq] at hp
    exact h hp

/-- Every list is a prefix of itself followed by anything. -/
theorem isPrefixOf_append_self : ∀ (l r : List Char),
    l.isPrefixOf (l ++ r) = true
  | [], r => by cases r <;> rfl
  | a :: t, r => by simp [List.isPrefixOf, isPrefixOf_append_self t r]

/-- When the separator occurs nowhere in the remaining input, the scan
finishes with a single part. -/
theorem splitChAux_no_occurrence (sep : List Char) :
    ∀ (fuel : Nat) (acc s : List Char), s.length ≤ fuel →
      containsSeq sep s = false →
      splitChAux sep fuel acc s = [acc.reverse ++ s]
  | 0, acc, s, _, _ => rfl
  | _ + 1, acc, [], _, _ => by simp [splitChAux]
  | fuel + 1, acc, c :: rest, hlen, hns => by
    have hparts := hns
    simp only [containsSeq, Bool.or_eq_false_iff] at hparts
    rw [splitChAux, if_neg (by simp [hparts.1])]
    rw [splitChAux_no_occurrence sep fuel (c :: acc) rest
      (Nat.le_of_succ_le_succ hlen) hparts.2]
    simp

/-- Scanning a string that starts with the separator emits one part and
continues after it. -/
theorem splitChAux_cons_marker (c : Char) (sep' r : List Char) (fuel : Nat)
    (acc : List Char) :
    splitChAux (c :: sep') (fuel + 1) acc (c :: (sep' ++ r)) =
      acc.reverse :: splitChAux (c :: sep') fuel [] r := by
  have hpre : (c :: sep').isPrefixOf (c :: (sep' ++ r)) = true := by
    have h := isPrefixOf_append_self (c :: sep') r
    simp only [List.cons_append] at h
    exact h
  rw [splitChAux, if_pos hpre]
  simp [List.drop_left]

/-- `('https://www.' ++ rest).split('https://www.')` is `['', rest]`
whenever `rest` does not itself contain the marker. -/
theorem jsSplit_www_marker (rest : String)
    (h : containsSeq "https://www.".toList rest.toList = false) :
    jsSplit ("https://www." ++ rest) "https://www." = ["", rest] := by
  unfold jsSplit
  have hlist : ("https://www." ++ rest).toList
      = 'h' :: ("ttps://www.".toList ++ rest.toList) := by
    have h2 : ("https://www." ++ rest).toList
        = "https://www.".toList ++ rest.toList := by
      simp [String.toList]
    rw [h2]
    rfl
  rw [hlist, List.length_cons]
  rw [show "https://www.".toList = 'h' :: "ttps://www.".toList from rfl]
  rw [splitChAux_cons_marker]
  rw [splitChAux_no_occurrence ('h' :: "ttps://www.".toList)
    ("ttps://www.".toList ++ rest.toList).length [] rest.toList
    (by simp; omega) h]
  simp

/-- A tag-link whose `type_of_force_id` differs from a given tag
definition is invisible to that definition's inner scan. -/
theorem tagRows_skip_one (tof : TagDef) (l : TagLink)
    (hl : ¬ l.type_of_force_id = tof.type_of_force_id)
    (typeLinks1 typeLinks2 : List TagLink) :
    ((typeLinks1 ++ l :: typeLinks2).filterMap fun connection =>
        if connection.type_of_force_id = tof.type_of_force_id then
          some { type_of_force_id := tof.type_of_force_id,
                 type_of_force := tof.type_of_force,
                 incident_id := connection.incident_id }
        else (none : Option Tag)) =
      ((typeLinks1 ++ typeLinks2).filterMap fun connection =>
        if connection.type_of_force_id = tof.type_of_force_id then
          some { type_of_force_id := tof.type_of_force_id,
                 type_of_force := tof.type_of_force,
                 incident_id := connection.incident_id }
        else (none : Option Tag)) := by
  simp [List.filterMap_append, List.filterMap_cons, hl]

/-- A tag-link whose `type_of_force_id` matches no tag definition never
reaches `tagsArray`. -/
theorem buildTagsArray_skips_unmatched (typeLinks1 typeLinks2 : List TagLink)
    (l : TagLink) :
    ∀ (tofTypes : List TagDef),
      (∀ tof ∈ tofTypes, tof.type_of_force_id ≠ l.type_of_force_id) →
      buildTagsArray tofTypes (typeLinks1 ++ l :: typeLinks2) =
        buildTagsArray tofTypes (typeLinks1 ++ typeLinks2)
  | [], _ => rfl
  | tof :: t, h => by
    have ih := buildTagsArray_skips_unmatched typeLinks1 typeLinks2 l t
      fun d hd => h d (List.mem_cons_of_mem tof hd)
    have hl : ¬ l.type_of_force_id = tof.type_of_force_id :=
      fun he => h tof (List.mem_cons_self tof t) he.symm
    unfold buildTagsArray at ih ⊢
    rw [List.flatMap_cons, List.flatMap_cons, ih,
      tagRows_skip_one tof l hl typeLinks1 typeLinks2]

/-- On the `www` branch the host token is the text of the tail before the
first `.com`, with no length gate and no `.org` or `.` stripping. -/
theorem hostToken_www (rest : String) (hne : rest ≠ "")
    (h : containsSeq "https://www.".toList rest.toList = false) :
    hostToken ("https://www." ++ rest) = jsIdx0 (jsSplit rest ".com") := by
  unfold hostToken
  rw [jsSplit_www_marker rest h]
  simp [hne]

/-! The claim theorems. -/

/-- Claim C1, amended: the handler leaves the tag-definition, tag-link and
source collections and their records unchanged, but it mutates each record
of its input `incidents` collection in place — setting the `categories`
and `src` fields while preserving every other field — and the returned
array holds exactly those same mutated input records, not new
structures. -/
theorem handler_mutation_frame (st : AggState) (i : Nat) (inc : Incident)
    (h : st.incidents[i]? = some inc) :
    (runShowAllIncidents st).2.tofTypes = st.tofTypes ∧
    (runShowAllIncidents st).2.typeLinks = st.typeLinks ∧
    (runShowAllIncidents st).2.sources = st.sources ∧
    (runShowAllIncidents st).1 = (runShowAllIncidents st).2.incidents ∧
    (runShowAllIncidents st).2.incidents[i]? = some
      { inc with
        categories := some (catsFor st.tofTypes st.typeLinks inc.incident_id),
        src := some (st.sources.filter fun s =>
          s.incident_id == inc.incident_id) } :=
  ⟨rfl, rfl, rfl, rfl,
    aggregate_getElem st.incidents st.tofTypes st.typeLinks st.sources i inc h⟩

/-- Witness for claim C1 at the sample state. -/
theorem handler_mutation_frame_witness :
    (runShowAllIncidents st1).2.tofTypes = st1.tofTypes ∧
    (runShowAllIncidents st1).2.typeLinks = st1.typeLinks ∧
    (runShowAllIncidents st1).2.sources = st1.sources ∧
    (runShowAllIncidents st1).1 = (runShowAllIncidents st1).2.incidents ∧
    (runShowAllIncidents st1).2.incidents[0]? = some
      { inc1 with
        categories := some (catsFor st1.tofTypes st1.typeLinks inc1.incident_id),
        src := some (st1.sources.filter fun s =>
          s.incident_id == inc1.incident_id) } :=
  handler_mutation_frame st1 0 inc1 (by decide)

/-- Claim C1 is false as stated: at this concrete input the call changes
the input `incidents` collection (its record acquires `categories` and
`src` fields), and the returned records are the very records now sitting
in the input collection, not new structures. -/
theorem handler_mutates_inputs_cex :
    (runShowAllIncidents ⟨[inc1], [], [], []⟩).2.incidents ≠ [inc1] ∧
    (runShowAllIncidents ⟨[inc1], [], [], []⟩).1 =
      (runShowAllIncidents ⟨[inc1], [], [], []⟩).2.incidents := by decide

/-- Claim C2, amended: category order is tag-definition-major: an
incident's `categories` sequence lists, for each tag definition in the
order the tag-definitions collection was supplied, that definition's label
once per matching tag-link in supplied link order — tag-link order decides
only among links resolved by the same tag definition. -/
theorem categories_tagdef_major_order (incidents : List Incident)
    (tofTypes : List TagDef) (typeLinks : List TagLink)
    (sources : List Source) (i : Nat) (inc : Incident)
    (h : incidents[i]? = some inc) :
    ((aggregate incidents tofTypes typeLinks sources)[i]?.map
      Incident.categories) =
      some (some (catsFor tofTypes typeLinks inc.incident_id)) := by
  rw [aggregate_getElem incidents tofTypes typeLinks sources i inc h]
  rfl

/-- Witness for claim C2. -/
theorem categories_tagdef_major_order_witness :
    ((aggregate [inc1] [⟨1, "A"⟩, ⟨2, "B"⟩] [⟨2, 1⟩, ⟨1, 1⟩] [])[0]?.map
      Incident.categories) =
      some (some (catsFor [⟨1, "A"⟩, ⟨2, "B"⟩] [⟨2, 1⟩, ⟨1, 1⟩]
        inc1.incident_id)) :=
  categories_tagdef_major_order [inc1] [⟨1, "A"⟩, ⟨2, "B"⟩]
    [⟨2, 1⟩, ⟨1, 1⟩] [] 0 inc1 (by decide)

/-- Claim C2 is false as stated: with tag definitions `(1,"A"), (2,"B")`
and tag links `(2,1), (1,1)`, the earlier link resolves to label `"B"` and
the later one to `"A"`, yet the output categories are `["A", "B"]`: the
label of the earlier link does not precede the label of the later link —
the order of the tag-definitions collection decides. -/
theorem categories_ignore_link_order_cex :
    (aggregate [inc1] [⟨1, "A"⟩, ⟨2, "B"⟩] [⟨2, 1⟩, ⟨1, 1⟩] []).map
      Incident.categories = [some ["A", "B"]] ∧
    List.lookup (2 : Int)
      (([⟨1, "A"⟩, ⟨2, "B"⟩] : List TagDef).map fun tof =>
        (tof.type_of_force_id, tof.type_of_force)) = some "B" ∧
    List.lookup (1 : Int)
      (([⟨1, "A"⟩, ⟨2, "B"⟩] : List TagDef).map fun tof =>
        (tof.type_of_force_id, tof.type_of_force)) = some "A" ∧
    ¬ List.indexOf "B" ["A", "B"] < List.indexOf "A" ["A", "B"] := by decide

/-- Claim C3, confirmed: one output record per input incident, in input
order: the output has the length of the input, and the record at each
index is the input incident at that index with all its fields preserved
plus the attached `categories` and `src` sequences. -/
theorem aggregate_one_record_per_incident (incidents : List Incident)
    (tofTypes : List TagDef) (typeLinks : List TagLink)
    (sources : List Source) :
    (aggregate incidents tofTypes typeLinks sources).length =
      incidents.length ∧
    ∀ (i : Nat) (inc : Incident), incidents[i]? = some inc →
      (aggregate incidents tofTypes typeLinks sources)[i]? = some
        { inc with
          categories := some (catsFor tofTypes typeLinks inc.incident_id),
          src := some (sources.filter fun s =>
            s.incident_id == inc.incident_id) } :=
  ⟨by simp [aggregate], fun i inc h =>
    aggregate_getElem incidents tofTypes typeLinks sources i inc h⟩

/-- Witness for claim C3 at the round-trip sample. -/
theorem aggregate_one_record_witness :
    (aggregate [inc1] [⟨1, "tear_gas"⟩] [⟨1, 1⟩] [src1]).length = 1 ∧
    (aggregate [inc1] [⟨1, "tear_gas"⟩] [⟨1, 1⟩] [src1])[0]? = some
      { inc1 with
        categories := some (catsFor [⟨1, "tear_gas"⟩] [⟨1, 1⟩]
          inc1.incident_id),
        src := some (List.filter (fun s => s.incident_id == inc1.incident_id)
          [src1]) } :=
  ⟨(aggregate_one_record_per_incident [inc1] [⟨1, "tear_gas"⟩] [⟨1, 1⟩]
      [src1]).1,
   (aggregate_one_record_per_incident [inc1] [⟨1, "tear_gas"⟩] [⟨1, 1⟩]
      [src1]).2 0 inc1 (by decide)⟩

/-- Claim C6, confirmed: a tag-link whose `type_of_force_id` matches no
tag definition contributes nothing: deleting it from anywhere in the
tag-links collection leaves the output unchanged, all other links being
processed as before (and the embedded join is a total function, so no
error is raised). -/
theorem unmatched_taglink_contributes_nothing (incidents : List Incident)
    (tofTypes : List TagDef) (sources : List Source)
    (typeLinks1 typeLinks2 : List TagLink) (l : TagLink)
    (h : ∀ tof ∈ tofTypes, tof.type_of_force_id ≠ l.type_of_force_id) :
    aggregate incidents tofTypes (typeLinks1 ++ l :: typeLinks2) sources =
      aggregate incidents tofTypes (typeLinks1 ++ typeLinks2) sources := by
  unfold aggregate
  rw [buildTagsArray_skips_unmatched typeLinks1 typeLinks2 l tofTypes h]

/-- Witness for claim C6: link `(99, 1)` matches no definition. -/
theorem unmatched_taglink_witness :
    aggregate [inc1] [⟨1, "A"⟩] ([⟨1, 1⟩] ++ ⟨99, 1⟩ :: []) [] =
      aggregate [inc1] [⟨1, "A"⟩] ([⟨1, 1⟩] ++ []) [] :=
  unmatched_taglink_contributes_nothing [inc1] [⟨1, "A"⟩] [] [⟨1, 1⟩] []
    ⟨99, 1⟩ (by decide)

/-- Claim C7, confirmed: when the sources collection is empty every output
record's `src` is the empty sequence, whatever the tag collections
contain. -/
theorem empty_sources_empty_src (incidents : List Incident)
    (tofTypes : List TagDef) (typeLinks : List TagLink) (r : Incident)
    (h : r ∈ aggregate incidents tofTypes typeLinks []) :
    r.src = some [] := by
  unfold aggregate at h
  rw [List.mem_map] at h
  obtain ⟨a, _, rfl⟩ := h
  rfl

/-- Witness for claim C7. -/
theorem empty_sources_empty_src_witness :
    ({ inc1 with
        categories := some ["tear_gas"],
        src := some [] } : Incident).src = some [] :=
  empty_sources_empty_src [inc1] [⟨1, "tear_gas"⟩] [⟨1, 1⟩] _ (by decide)

/-- Claim C4, confirmed: `classify` is total: for every input string it
returns the original string unchanged as `src_url` and a `src_type` drawn
from the closed six-label set, `article` whenever the host token matches
no lookup-table entry; in particular `classify("")` is
`{src_url := "", src_type := "article"}`. -/
theorem classify_total_closed_set (s : String) :
    (classify s).src_url = s ∧
    (classify s).src_type ∈
      ["video", "post", "court_document", "image", "police_report",
       "article"] ∧
    (List.lookup (hostToken s) typeTable = none →
      (classify s).src_type = "article") ∧
    classify "" = ⟨"", "article"⟩ := by
  refine ⟨rfl, ?_, ?_, by decide⟩
  · cases hk : List.lookup (hostToken s) typeTable with
    | none => simp [classify, hk]
    | some v =>
      have hv := lookup_snd_mem typeTable (hostToken s) v hk
      have hsub : ∀ x ∈ typeTable.map Prod.snd,
          x ∈ ["video", "post", "court_document", "image", "police_report",
               "article"] := by decide
      have he : (classify s).src_type = v := by simp [classify, hk]
      rw [he]
      exact hsub v hv
  · intro hk
    simp [classify, hk]

/-- Witness for claim C4 on a host-pattern-free string. -/
theorem classify_total_witness :
    List.lookup (hostToken "not a url") typeTable = none ∧
    (classify "not a url").src_type = "article" :=
  ⟨by decide, (classify_total_closed_set "not a url").2.2.1 (by decide)⟩

/-- Claim C5, confirmed: `"https://nlg-la.org/case123"` takes the plain
`https://` fallback branch (the `www` marker is absent), the pre-gate
token `nlg-la.org/case123` is longer than 11 characters, stripping `.org`
leaves `nlg-la`, which is not longer than 10 characters and resolves to
`court_document` in the lookup table. -/
theorem classify_nlg_la_court_document :
    classify "https://nlg-la.org/case123" =
      ⟨"https://nlg-la.org/case123", "court_document"⟩ ∧
    (jsSplit "https://nlg-la.org/case123" "https://www.")[1]? = none ∧
    (jsSplit "https://nlg-la.org/case123" "https://")[1]? =
      some "nlg-la.org/case123" ∧
    jsIdx0 (jsSplit "nlg-la.org/case123" ".com") = "nlg-la.org/case123" ∧
    11 < ("nlg-la.org/case123" : String).length ∧
    jsIdx0 (jsSplit "nlg-la.org/case123" ".org") = "nlg-la" ∧
    ¬ 10 < ("nlg-la" : String).length ∧
    List.lookup "nlg-la" typeTable = some "court_document" := by decide

/-- Claim C8: the result of `processSources` depends only on its argument
(the binding is re-initialised on entry, so two calls with the same input
return equal results whatever state preceded them), but — against the
claim — an invocation does write state outside its own call: because
`incident_src` is assigned without a declarator, the module-external
global binding holds the result array after the call returns. -/
theorem processSources_writes_global_binding :
    (processSources none ["https://twitter.com/x"]).2 =
      some [⟨"https://twitter.com/x", "post"⟩] ∧
    (processSources none ["https://twitter.com/x"]).2 ≠ none ∧
    (processSources none ["https://twitter.com/x"]).1 =
      (processSources (some [⟨"stale", "article"⟩])
        ["https://twitter.com/x"]).1 := by decide

/-- Claim C9, amended: for every URL of the shape `"https://www." ++ rest`
with `rest` non-empty and not containing the marker again, the host token
is exactly the text of `rest` before the first `.com`: the 11-character
gate, the `.org` stripping and the first-dot shortening run only on the
plain `https://` fallback branch.  Hence
`"https://www.nlg-la.org/case123"` classifies as `article` although the
same URL without `www.` classifies as `court_document`. -/
theorem www_branch_token_ungated (rest : String) (hne : rest ≠ "")
    (h : containsSeq "https://www.".toList rest.toList = false) :
    hostToken ("https://www." ++ rest) = jsIdx0 (jsSplit rest ".com") ∧
    classify "https://www.nlg-la.org/case123" =
      ⟨"https://www.nlg-la.org/case123", "article"⟩ ∧
    classify "https://nlg-la.org/case123" =
      ⟨"https://nlg-la.org/case123", "court_document"⟩ :=
  ⟨hostToken_www rest hne h, by decide, by decide⟩

/-- Witness for claim C9. -/
theorem www_branch_token_witness :
    hostToken ("https://www." ++ "nlg-la.org/case123") =
      jsIdx0 (jsSplit "nlg-la.org/case123" ".com") ∧
    classify "https://www.nlg-la.org/case123" =
      ⟨"https://www.nlg-la.org/case123", "article"⟩ ∧
    classify "https://nlg-la.org/case123" =
      ⟨"https://nlg-la.org/case123", "court_document"⟩ :=
  www_branch_token_ungated "nlg-la.org/case123" (by decide) (by decide)

/-- Claim C9 is false as stated: `"https://www."` begins with
`"https://www."`, but the `[1]` component of the split is the empty
string, which JavaScript treats as false, so the fallback branch runs: the
host token is `"www."` and not the text (here empty) between the marker
and the first `.com`. -/
theorem www_branch_token_cex :
    "https://www." ++ "" = "https://www." ∧
    hostToken "https://www." = "www." ∧
    jsIdx0 (jsSplit "" ".com") = "" ∧
    ("www." : String) ≠ "" := by decide

/-- Claim C10, amended: no deduplication, counted per matching tag
definition: the number of occurrences of a label in an incident's
`categories` equals the sum, over tag definitions carrying that label, of
the occurrences of the (definition, incident) link pair in the tag-links
collection — each occurrence of a pair contributes once per definition
that resolves it — and each source row matching the incident appears in
`src` once per occurrence in the sources collection. -/
theorem category_src_multiplicity (incidents : List Incident)
    (tofTypes : List TagDef) (typeLinks : List TagLink)
    (sources : List Source) (i : Nat) (inc : Incident)
    (h : incidents[i]? = some inc) (lab : String) (s : Source) :
    ((aggregate incidents tofTypes typeLinks sources)[i]?.map fun r =>
      (r.categories.getD []).count lab) =
      some ((tofTypes.map fun tof =>
        if tof.type_of_force = lab then
          typeLinks.count ⟨tof.type_of_force_id, inc.incident_id⟩
        else 0).sum) ∧
    ((aggregate incidents tofTypes typeLinks sources)[i]?.map fun r =>
      (r.src.getD []).count s) =
      some (if s.incident_id = inc.incident_id then sources.count s
        else 0) := by
  rw [aggregate_getElem incidents tofTypes typeLinks sources i inc h]
  simp [count_catsFor, count_src_filter]

/-- Witness for claim C10: the pair `(1,1)` occurs twice, the label twice. -/
theorem category_src_multiplicity_witness :
    ((aggregate [inc1] [⟨1, "A"⟩] [⟨1, 1⟩, ⟨1, 1⟩] [src1])[0]?.map fun r =>
      (r.categories.getD []).count "A") =
      some ((([⟨1, "A"⟩] : List TagDef).map fun tof =>
        if tof.type_of_force = "A" then
          ([⟨1, 1⟩, ⟨1, 1⟩] : List TagLink).count
            ⟨tof.type_of_force_id, inc1.incident_id⟩
        else 0).sum) ∧
    ((aggregate [inc1] [⟨1, "A"⟩] [⟨1, 1⟩, ⟨1, 1⟩] [src1])[0]?.map fun r =>
      (r.src.getD []).count src1) =
      some (if src1.incident_id = inc1.incident_id then
        ([src1] : List Source).count src1 else 0) :=
  category_src_multiplicity [inc1] [⟨1, "A"⟩] [⟨1, 1⟩, ⟨1, 1⟩] [src1] 0 inc1
    (by decide) "A" src1

/-- Claim C10 is false as stated: the link pair `(1,1)` occurs exactly
once in the tag-links collection, yet — two tag definitions carrying the
label `"A"` — the resolved label `"A"` occurs twice in the incident's
categories, not once. -/
theorem duplicate_label_multiplicity_cex :
    List.count (⟨1, 1⟩ : TagLink) [⟨1, 1⟩, ⟨2, 1⟩] = 1 ∧
    (aggregate [inc1] [⟨1, "A"⟩, ⟨2, "A"⟩] [⟨1, 1⟩, ⟨2, 1⟩] []).map
      (fun r => (r.categories.getD []).count "A") = [2] := by decide
